import Mathlib

/- A verification development for the credit-card fraud-detection service:
   a shallow embedding of `utils.prepare_features_from_raw` (the Feature
   Aligner) and of the Flask `/predict` handler in `app.py`, with theorems
   about the specified behaviour. -/

deriving instance DecidableEq for Except

namespace CCFraud

set_option maxRecDepth 40000

/-- Python str.lower restricted to the ASCII range the model names use. -/
def strToLower (s : String) : String := String.mk (s.data.map Char.toLower)

/-- Values a JSON-decoded raw transaction record may hold for a field.
Only numbers and strings occur in the fields this program reads. -/
inductive Value where
  | num (q : ℚ)
  | str (s : String)
deriving DecidableEq

/-- A raw transaction record: a JSON object, keys assumed distinct. -/
abbrev RawRecord := List (String × Value)

/-- Dictionary lookup, first binding wins (keys are unique in a JSON object). -/
def lookupField (k : String) : RawRecord → Option Value
  | [] => none
  | p :: rest => if p.1 = k then some p.2 else lookupField k rest

/-- Python record.get(k, dflt). -/
def getVal (rec : RawRecord) (k : String) (dflt : Value) : Value :=
  (lookupField k rec).getD dflt

/-- Numeric value of a decimal digit character, none otherwise. -/
def digitVal (c : Char) : Option ℕ :=
  if 48 ≤ c.toNat ∧ c.toNat ≤ 57 then some (c.toNat - 48) else none

/-- Split a leading run of decimal digits from a character list. -/
def takeDigits : List Char → List ℕ × List Char
  | [] => ([], [])
  | c :: rest =>
    match digitVal c with
    | some d => let p := takeDigits rest; (d :: p.1, p.2)
    | none => ([], c :: rest)

/-- Value of a digit sequence read in base 10. -/
def natOfDigits (ds : List ℕ) : ℕ := ds.foldl (fun a d => a * 10 + d) 0

/-- Strip leading and trailing spaces (Python float() and int() strip
whitespace around the literal). -/
def stripSpaces (cs : List Char) : List Char :=
  ((cs.dropWhile (· = ' ')).reverse.dropWhile (· = ' ')).reverse

/-- Optional leading sign: returns (sign, rest). -/
def splitSign : List Char → ℤ × List Char
  | '-' :: rest => (-1, rest)
  | '+' :: rest => (1, rest)
  | cs => (1, cs)

/-- Unsigned decimal literal: digits, optionally a dot and more digits
("12", "12.", "12.5", ".5"). These are the decimal forms Python float()
accepts; exponent, inf and nan forms are outside the inputs this
development exercises and are treated as unparseable. -/
def parseDecimal (cs : List Char) : Option ℚ :=
  let ip := takeDigits cs
  match ip.2 with
  | [] => if ip.1 = [] then none else some (natOfDigits ip.1)
  | c :: rest =>
    if c = '.' then
      let fp := takeDigits rest
      if fp.2 = [] ∧ (ip.1 ≠ [] ∨ fp.1 ≠ []) then
        some ((natOfDigits ip.1 : ℚ) + (natOfDigits fp.1 : ℚ) / (10 : ℚ) ^ fp.1.length)
      else none
    else none

/-- Python float(s) on a string: strip spaces, optional sign, decimal form. -/
def parseFloatStr (s : String) : Option ℚ :=
  let p := splitSign (stripSpaces s.data)
  match parseDecimal p.2 with
  | some q => some ((p.1 : ℚ) * q)
  | none => none

/-- Python int(s) on a string: strip spaces, optional sign, decimal digits
only (a fractional literal is rejected, as int("2.5") is in Python). -/
def parseIntStr (s : String) : Option ℤ :=
  let p := splitSign (stripSpaces s.data)
  let d := takeDigits p.2
  if d.2 = [] ∧ d.1 ≠ [] then some (p.1 * natOfDigits d.1) else none

/-- Python int() applied to a number: truncation toward zero. -/
def pyTrunc (q : ℚ) : ℤ := if 0 ≤ q then ⌊q⌋ else -⌊-q⌋

/-- Python float(v): numbers pass through, strings are parsed, anything
unparseable raises ValueError. -/
def pyFloat : Value → Except String ℚ
  | .num q => .ok q
  | .str s =>
    match parseFloatStr s with
    | some q => .ok q
    | none => .error ("could not convert string to float: " ++ s)

/-- Python int(v): numbers truncate toward zero, strings must be integer
literals, anything unparseable raises ValueError. -/
def pyInt : Value → Except String ℤ
  | .num q => .ok (pyTrunc q)
  | .str s =>
    match parseIntStr s with
    | some n => .ok n
    | none => .error ("invalid literal for int() with base 10: " ++ s)

/-- Python str(v). For numbers the exact Python float formatting is
abbreviated by the canonical rational rendering; no theorem below relies
on the rendering of a numeric categorical. -/
def pyStr : Value → String
  | .num q => toString q
  | .str s => s

/-- A parsed timestamp: the calendar and clock fields the program reads
(pandas Timestamp exposes .hour and .day). -/
structure DateTime where
  year : ℤ
  month : ℕ
  day : ℕ
  hour : ℕ
  minute : ℕ
  second : ℕ
deriving DecidableEq

def isLeapYear (y : ℤ) : Bool :=
  (y % 4 == 0 && y % 100 != 0) || y % 400 == 0

def daysInMonth (y : ℤ) (m : ℕ) : ℕ :=
  if m = 2 then (if isLeapYear y then 29 else 28)
  else if m = 4 ∨ m = 6 ∨ m = 9 ∨ m = 11 then 30
  else 31

/-- Two decimal digit characters read as a number. -/
def twoDigits (a b : Char) : Option ℕ := do
  let x ← digitVal a
  let y ← digitVal b
  pure (10 * x + y)

/-- Build a DateTime, validating calendar and clock ranges as pandas does. -/
def mkDateTime (y mo d h mi se : ℕ) : Option DateTime :=
  if 1 ≤ mo ∧ mo ≤ 12 ∧ 1 ≤ d ∧ d ≤ daysInMonth (y : ℤ) mo ∧ h < 24 ∧ mi < 60 ∧ se < 60 then
    some ⟨(y : ℤ), mo, d, h, mi, se⟩
  else none

/-- ISO-style timestamp strings accepted at the /predict boundary:
YYYY-MM-DD, optionally followed by a space or a T and HH:MM:SS. pandas
accepts further formats; those are outside the inputs this development
exercises, and any string outside these shapes is treated as unparseable. -/
def parseTimestampStr (s : String) : Option DateTime :=
  match s.data with
  | [y1, y2, y3, y4, '-', a1, a2, '-', b1, b2] => do
    let hi2 ← twoDigits y1 y2
    let lo2 ← twoDigits y3 y4
    let mo ← twoDigits a1 a2
    let d ← twoDigits b1 b2
    mkDateTime (100 * hi2 + lo2) mo d 0 0 0
  | [y1, y2, y3, y4, '-', a1, a2, '-', b1, b2, sep, h1, h2, ':', n1, n2, ':', e1, e2] =>
    if sep = ' ' ∨ sep = 'T' then do
      let hi2 ← twoDigits y1 y2
      let lo2 ← twoDigits y3 y4
      let mo ← twoDigits a1 a2
      let d ← twoDigits b1 b2
      let h ← twoDigits h1 h2
      let mi ← twoDigits n1 n2
      let se ← twoDigits e1 e2
      mkDateTime (100 * hi2 + lo2) mo d h mi se
    else none
  | _ => none

/-- Civil calendar date from a count of days since 1970-01-01 (proleptic
Gregorian, the standard era-based conversion). -/
def civilFromDays (z : ℤ) : ℤ × ℕ × ℕ :=
  let zz := z + 719468
  let era := Int.fdiv zz 146097
  let doe := (zz - era * 146097).toNat
  let yoe := (doe - doe / 1460 + doe / 36524 - doe / 146096) / 365
  let doy := doe - (365 * yoe + yoe / 4 - yoe / 100)
  let mp := (5 * doy + 2) / 153
  let dd := doy - (153 * mp + 2) / 5 + 1
  let mo := if mp < 10 then mp + 3 else mp - 9
  (((yoe : ℤ) + era * 400) + (if mo ≤ 2 then 1 else 0), mo, dd)

/-- pandas reads a bare number as nanoseconds since the epoch. -/
def dateTimeOfEpochNs (ns : ℤ) : DateTime :=
  let total := Int.fdiv ns 1000000000
  let days := Int.fdiv total 86400
  let sod := (total - days * 86400).toNat
  let c := civilFromDays days
  ⟨c.1, c.2.1, c.2.2, sod / 3600, sod % 3600 / 60, sod % 60⟩

/-- pd.to_datetime on a record value: strings are parsed (unparseable ones
raise), numbers are epoch nanoseconds within the int64 range. -/
def pdToDatetime : Value → Except String DateTime
  | .str s =>
    match parseTimestampStr s with
    | some dt => .ok dt
    | none => .error ("Unknown datetime string format: " ++ s)
  | .num q =>
    let ns := pyTrunc q
    if ns < -(2 ^ 63) ∨ 2 ^ 63 ≤ ns then .error "Out of bounds nanosecond timestamp"
    else .ok (dateTimeOfEpochNs ns)

/-- The eleven fields utils.prepare_features_from_raw extracts (utils.py
lines 18-29), after conversion. -/
structure RawFields where
  amount : ℚ
  category : String
  merchant : String
  timestamp : DateTime
  location : String
  device : String
  card_present : ℤ
  cvv_present : ℤ
  card_bin : ℤ
  ip_address : String
  chargeback_history : ℚ
deriving DecidableEq

/-- pd.to_datetime(record.get("timestamp", datetime.now())): the current
time (an explicit parameter of the embedding, since the source reads the
wall clock here) when the field is absent. -/
def tsOf (now : DateTime) (rec : RawRecord) : Except String DateTime :=
  match lookupField "timestamp" rec with
  | some v => pdToDatetime v
  | none => .ok now

/-- utils.py lines 18-29: extract each field with its default, converting;
conversion failures propagate in source order. -/
def extractFields (now : DateTime) (rec : RawRecord) : Except String RawFields :=
  match pyFloat (getVal rec "amount" (Value.num 0)) with
  | .error e => .error e
  | .ok amount =>
    let category := pyStr (getVal rec "category" (Value.str "Other"))
    let merchant := pyStr (getVal rec "merchant" (Value.str "Unknown"))
    match tsOf now rec with
    | .error e => .error e
    | .ok timestamp =>
      let location := pyStr (getVal rec "location" (Value.str "Unknown"))
      let device := pyStr (getVal rec "device" (Value.str "Unknown"))
      match pyInt (getVal rec "card_present" (Value.num 0)) with
      | .error e => .error e
      | .ok card_present =>
        match pyInt (getVal rec "cvv_present" (Value.num 0)) with
        | .error e => .error e
        | .ok cvv_present =>
          match pyInt (getVal rec "card_bin" (Value.num 0)) with
          | .error e => .error e
          | .ok card_bin =>
            let ip_address := pyStr (getVal rec "ip_address" (Value.str "0.0.0.0"))
            match pyFloat (getVal rec "chargeback_history" (Value.num 0)) with
            | .error e => .error e
            | .ok chargeback_history =>
              .ok ⟨amount, category, merchant, timestamp, location, device,
                   card_present, cvv_present, card_bin, ip_address, chargeback_history⟩

/-- utils.py lines 31-35: the derived features. -/
structure Derived where
  transaction_hour : ℕ
  transaction_day : ℕ
  is_high_amount : ℚ
  card_info_match : ℚ
deriving DecidableEq

def deriveFeatures (fl : RawFields) : Derived :=
  { transaction_hour := fl.timestamp.hour
    transaction_day := fl.timestamp.day
    is_high_amount := if fl.amount > 500 then 1 else 0
    card_info_match := if fl.card_present ≠ 0 ∧ fl.cvv_present ≠ 0 then 1 else 0 }

/-- Set row[name] = v only when that column exists among TRAIN_COLUMNS (the
row dict only ever holds schema keys, so "name in row" is membership in
the schema). -/
def setIfKnown (schema : List String) (row : String → ℚ) (name : String) (v : ℚ) :
    String → ℚ :=
  if name ∈ schema then Function.update row name v else row

def numericPairs (fl : RawFields) (d : Derived) : List (String × ℚ) :=
  [("amount", fl.amount), ("chargeback_history", fl.chargeback_history),
   ("transaction_hour", (d.transaction_hour : ℚ)),
   ("transaction_day", (d.transaction_day : ℚ)),
   ("is_high_amount", d.is_high_amount), ("card_info_match", d.card_info_match)]

/-- Default string of each categorical field in utils.py lines 20-24. -/
def catDefault (f : String) : String := if f = "category" then "Other" else "Unknown"

def catPairs (fl : RawFields) : List (String × String) :=
  [("merchant", fl.merchant), ("category", fl.category),
   ("location", fl.location), ("device", fl.device)]

/-- utils.py lines 37-67: dense zero row over TRAIN_COLUMNS, numeric fills,
the two binary fills, then one-hot categorical fills. -/
def buildRow (schema : List String) (fl : RawFields) : String → ℚ :=
  let row1 := (numericPairs fl (deriveFeatures fl)).foldl
    (fun r p => setIfKnown schema r p.1 p.2) (fun _ => 0)
  let row2 := setIfKnown schema row1 "card_present" (fl.card_present : ℚ)
  let row3 := setIfKnown schema row2 "cvv_present" (fl.cvv_present : ℚ)
  (catPairs fl).foldl (fun r p => setIfKnown schema r (p.1 ++ "_" ++ p.2) 1) row3

/-- The persisted StandardScaler: feature_names_in_ (present exactly when
the scaler was fitted on a named frame, hence the hasattr guard in the
source) and per-column mean and scale. -/
structure ScalerState where
  featureNames : Option (List String)
  mean : String → ℚ
  scale : String → ℚ

/-- utils.py lines 69-76: put the row in TRAIN_COLUMNS order and, when the
scaler carries feature names, transform exactly those columns with
(x - mean) / scale; selecting a column absent from the frame raises. -/
def scaleAndFrame (schema : List String) (sc : ScalerState) (row : String → ℚ) :
    Except String (List (String × ℚ)) :=
  match sc.featureNames with
  | none => .ok (schema.map fun c => (c, row c))
  | some cols =>
    if ∀ c ∈ cols, c ∈ schema then
      .ok (schema.map fun c =>
        (c, if c ∈ cols then (row c - sc.mean c) / sc.scale c else row c))
    else .error "KeyError: a scaler column is missing from TRAIN_COLUMNS"

/-- utils.prepare_features_from_raw: the Feature Aligner. -/
def prepare_features_from_raw (schema : List String) (sc : ScalerState)
    (now : DateTime) (rec : RawRecord) : Except String (List (String × ℚ)) :=
  match extractFields now rec with
  | .error e => .error e
  | .ok fl => scaleAndFrame schema sc (buildRow schema fl)

/-- The two models loaded at startup; each maps a feature vector to the
probability of class 1 (predict_proba(x)[0][1]). -/
structure Models where
  lr : List (String × ℚ) → ℚ
  rf : List (String × ℚ) → ℚ

def REQUIRED : List String :=
  ["amount", "category", "merchant", "timestamp", "location", "device",
   "card_present", "cvv_present", "card_bin", "ip_address", "chargeback_history"]

/-- Round half to even at integer precision, as Python round does. -/
def roundHalfEven (q : ℚ) : ℤ :=
  if q - ⌊q⌋ < 1 / 2 then ⌊q⌋
  else if q - ⌊q⌋ > 1 / 2 then ⌊q⌋ + 1
  else if ⌊q⌋ % 2 = 0 then ⌊q⌋ else ⌊q⌋ + 1

/-- Python round(q, 4). -/
def pyRound4 (q : ℚ) : ℚ := (roundHalfEven (q * 10000) : ℚ) / 10000

/-- Python repr of a string inside str(list): the name between single
quotes (the quote character written by code point). -/
def pyQuote (s : String) : String :=
  String.singleton (Char.ofNat 39) ++ s ++ String.singleton (Char.ofNat 39)

/-- Python str of a list of strings: bracketed, comma-space separated. -/
def pyListRepr (xs : List String) : String :=
  "[" ++ String.intercalate ", " (xs.map pyQuote) ++ "]"

/-- Response bodies jsonify produces in app.predict. -/
inductive RespBody where
  | err (msg : String)
  | ok (model : String) (input : RawRecord) (fraud_probability : ℚ)
       (predicted_is_fraud : ℤ)
deriving DecidableEq

/-- app.predict: model selection, required-field validation, alignment,
prediction, thresholding at 0.5 and rounding to 4 decimals. The request is
the model query parameter and the JSON body (none when the body is absent
or unparseable, which request.get_json(silent=True) or \x7b\x7d turns
into the empty record). -/
def predict (MODELS : Models) (schema : List String) (sc : ScalerState)
    (now : DateTime) (modelArg : Option String) (jsonBody : Option RawRecord) :
    ℕ × RespBody :=
  let choice := strToLower (modelArg.getD "")
  if choice = "lr" ∨ choice = "rf" then
    let model := if choice = "lr" then MODELS.lr else MODELS.rf
    let data := jsonBody.getD []
    let missing := REQUIRED.filter fun k => (lookupField k data).isNone
    if missing = [] then
      match prepare_features_from_raw schema sc now data with
      | .error e => (500, .err ("Failed to prepare or predict: " ++ e))
      | .ok x =>
        let prob := model x
        (200, .ok (if choice = "lr" then "logistic_regression" else "random_forest")
          data (pyRound4 prob) (if prob ≥ 1 / 2 then 1 else 0))
    else (400, .err ("Missing fields: " ++ pyListRepr missing))
  else (400, .err "Unknown model. Use ?model=lr or ?model=rf")

/-- A record with every binding for a key removed: the same record with that
field omitted. -/
def removeField (f : String) : RawRecord → RawRecord
  | [] => []
  | p :: rest => if p.1 = f then removeField f rest else p :: removeField f rest

/-- The loaded scaler is consistent with the loaded schema: every column it
was fitted on occurs among TRAIN_COLUMNS (true of the shipped artifacts,
whose four scaled columns all appear in the training frame). -/
def scalerOK (schema : List String) (sc : ScalerState) : Prop :=
  ∀ cols, sc.featureNames = some cols → ∀ c ∈ cols, c ∈ schema

/-- A scaler state carrying no feature names (no scaling applied). -/
def scalerNone : ScalerState := ⟨none, fun _ => 0, fun _ => 1⟩

/-- A scaler fitted on the single column "amount", mean 0, scale 1. -/
def scalerAmount : ScalerState := ⟨some ["amount"], fun _ => 0, fun _ => 1⟩

/-- A fixed current time for concrete runs. -/
def epochDT : DateTime := ⟨1970, 1, 1, 0, 0, 0⟩

/-- A different current time, one hour later. -/
def laterDT : DateTime := ⟨1970, 1, 1, 1, 0, 0⟩

/-- The extracted fields of the empty record at current time epochDT. -/
def flDefault : RawFields :=
  ⟨0, "Other", "Unknown", epochDT, "Unknown", "Unknown", 0, 0, 0, "0.0.0.0", 0⟩

/-- A record holding only a timestamp. -/
def recTsOnly : RawRecord := [("timestamp", Value.str "2025-10-10T14:30:00")]

/-- The extracted fields of recTsOnly. -/
def flTsOnly : RawFields :=
  ⟨0, "Other", "Unknown", ⟨2025, 10, 10, 14, 30, 0⟩, "Unknown", "Unknown",
   0, 0, 0, "0.0.0.0", 0⟩

/-- The spec scenario record (all eleven fields present). -/
def recScenario : RawRecord :=
  [("amount", .num 350), ("category", .str "Food"), ("merchant", .str "ShopSmart"),
   ("timestamp", .str "2025-10-10T14:30:00"), ("location", .str "New York"),
   ("device", .str "Mobile"), ("card_present", .num 1), ("cvv_present", .num 1),
   ("card_bin", .num 453212), ("ip_address", .str "192.168.1.45"),
   ("chargeback_history", .num 1)]

/-- A model pair whose class-1 probability is constantly 0.49996 (lr) or 0 (rf). -/
def modelsNearHalf : Models := ⟨fun _ => 49996 / 100000, fun _ => 0⟩

/-- A schema holding exactly the four derived feature columns. -/
def schemaDerived : List String :=
  ["transaction_hour", "transaction_day", "is_high_amount", "card_info_match"]

lemma lookupField_removeField_self (f : String) :
    ∀ rec, lookupField f (removeField f rec) = none := by
  intro rec
  induction rec with
  | nil => rfl
  | cons p rest ih =>
    simp only [removeField]
    by_cases hp : p.1 = f
    · rw [if_pos hp]; exact ih
    · rw [if_neg hp]; simp only [lookupField]; rw [if_neg hp]; exact ih

lemma lookupField_removeField_ne {g f : String} (h : g ≠ f) :
    ∀ rec, lookupField g (removeField f rec) = lookupField g rec := by
  intro rec
  induction rec with
  | nil => rfl
  | cons p rest ih =>
    simp only [removeField, lookupField]
    by_cases hp : p.1 = f
    · rw [if_pos hp, if_neg (fun hg : p.1 = g => h (hg.symm.trans hp)), ih]
    · rw [if_neg hp]
      simp only [lookupField]
      by_cases hg : p.1 = g
      · rw [if_pos hg, if_pos hg]
      · rw [if_neg hg, if_neg hg, ih]

lemma getVal_removeField_ne {g f : String} (h : g ≠ f) (rec : RawRecord) (d : Value) :
    getVal (removeField f rec) g d = getVal rec g d := by
  unfold getVal; rw [lookupField_removeField_ne h]

lemma getVal_removeField_self (f : String) (rec : RawRecord) (d : Value) :
    getVal (removeField f rec) f d = d := by
  unfold getVal; rw [lookupField_removeField_self]; rfl

lemma setIfKnown_not_mem {schema : List String} {n : String} (r : String → ℚ) (v : ℚ)
    (h : n ∉ schema) : setIfKnown schema r n v = r := by
  unfold setIfKnown; exact if_neg h

lemma setIfKnown_at_ne {c n : String} (schema : List String) (r : String → ℚ) (v : ℚ)
    (h : c ≠ n) : setIfKnown schema r n v c = r c := by
  unfold setIfKnown
  split
  · exact Function.update_noteq h v r
  · rfl

lemma setIfKnown_at_mem {n : String} (schema : List String) (r : String → ℚ) (v : ℚ)
    (h : n ∈ schema) : setIfKnown schema r n v n = v := by
  unfold setIfKnown; rw [if_pos h]; exact Function.update_same n v r

/-- The fill phase of the aligner written as an explicit chain of conditional
updates, in source order (amount first, device one-hot last). -/
lemma buildRow_unfold (schema : List String) (fl : RawFields) :
    buildRow schema fl =
    setIfKnown schema
     (setIfKnown schema
      (setIfKnown schema
       (setIfKnown schema
        (setIfKnown schema
         (setIfKnown schema
          (setIfKnown schema
           (setIfKnown schema
            (setIfKnown schema
             (setIfKnown schema
              (setIfKnown schema
               (setIfKnown schema (fun _ => 0) "amount" fl.amount)
               "chargeback_history" fl.chargeback_history)
              "transaction_hour" (fl.timestamp.hour : ℚ))
             "transaction_day" (fl.timestamp.day : ℚ))
            "is_high_amount" (if fl.amount > 500 then 1 else 0))
           "card_info_match" (if fl.card_present ≠ 0 ∧ fl.cvv_present ≠ 0 then 1 else 0))
          "card_present" (fl.card_present : ℚ))
         "cvv_present" (fl.cvv_present : ℚ))
        ("merchant" ++ "_" ++ fl.merchant) 1)
       ("category" ++ "_" ++ fl.category) 1)
      ("location" ++ "_" ++ fl.location) 1)
     ("device" ++ "_" ++ fl.device) 1 := rfl

lemma strPfx_ne_lit {p c : String} (s : String) (hc : p.data.isPrefixOf c.data = true)
    (hs : p.data.isPrefixOf s.data = false) : c ≠ s := by
  intro he; subst he; rw [hc] at hs; exact Bool.noConfusion hs

lemma ne_append_of_not_pfx {s q : String} (w : String)
    (h : q.data.isPrefixOf s.data = false) : s ≠ q ++ w := by
  intro he
  have hp : q.data <+: s.data := by
    rw [he, String.data_append]; exact List.prefix_append q.data w.data
  rw [List.isPrefixOf_iff_prefix.mpr hp] at h
  exact Bool.noConfusion h

lemma pfx_of_pfx_append {p q : String} {w : String} (hlen : p.data.length ≤ q.data.length)
    (h : p.data.isPrefixOf (q ++ w).data = true) : p.data.isPrefixOf q.data = true := by
  have h1 : p.data <+: q.data ++ w.data := by
    rw [← String.data_append]; exact List.isPrefixOf_iff_prefix.mp h
  have h2 : p.data = (q.data ++ w.data).take p.data.length := List.prefix_iff_eq_take.mp h1
  rw [List.take_append_of_le_length hlen] at h2
  refine List.isPrefixOf_iff_prefix.mpr ?_
  rw [h2]
  exact List.take_prefix p.data.length q.data

lemma ne_append_of_pfx_mismatch {c p q : String} (w : String)
    (hc : p.data.isPrefixOf c.data = true)
    (hq : p.data.isPrefixOf q.data = false)
    (hlen : p.data.length ≤ q.data.length) : c ≠ q ++ w := by
  intro he
  subst he
  have h2 := pfx_of_pfx_append hlen hc
  rw [h2] at hq
  exact Bool.noConfusion hq

lemma tsOf_some {rec : RawRecord} {v : Value} (now : DateTime)
    (h : lookupField "timestamp" rec = some v) : tsOf now rec = pdToDatetime v := by
  unfold tsOf; rw [h]

lemma tsOf_none {rec : RawRecord} (now : DateTime)
    (h : lookupField "timestamp" rec = none) : tsOf now rec = .ok now := by
  unfold tsOf; rw [h]

/-- Each component of a successfully extracted record, in terms of the raw
record's own field values and conversions. -/
lemma extract_ok_components {now : DateTime} {rec : RawRecord} {fl : RawFields}
    (h : extractFields now rec = .ok fl) :
    pyFloat (getVal rec "amount" (Value.num 0)) = .ok fl.amount ∧
    fl.category = pyStr (getVal rec "category" (Value.str "Other")) ∧
    fl.merchant = pyStr (getVal rec "merchant" (Value.str "Unknown")) ∧
    tsOf now rec = .ok fl.timestamp ∧
    fl.location = pyStr (getVal rec "location" (Value.str "Unknown")) ∧
    fl.device = pyStr (getVal rec "device" (Value.str "Unknown")) ∧
    pyInt (getVal rec "card_present" (Value.num 0)) = .ok fl.card_present ∧
    pyInt (getVal rec "cvv_present" (Value.num 0)) = .ok fl.cvv_present ∧
    pyInt (getVal rec "card_bin" (Value.num 0)) = .ok fl.card_bin ∧
    fl.ip_address = pyStr (getVal rec "ip_address" (Value.str "0.0.0.0")) ∧
    pyFloat (getVal rec "chargeback_history" (Value.num 0)) = .ok fl.chargeback_history := by
  unfold extractFields at h
  cases h1 : pyFloat (getVal rec "amount" (Value.num 0)) with
  | error e => rw [h1] at h; cases h
  | ok a =>
    rw [h1] at h
    cases h2 : tsOf now rec with
    | error e => rw [h2] at h; cases h
    | ok ts =>
      rw [h2] at h
      cases h3 : pyInt (getVal rec "card_present" (Value.num 0)) with
      | error e => rw [h3] at h; cases h
      | ok cp =>
        rw [h3] at h
        cases h4 : pyInt (getVal rec "cvv_present" (Value.num 0)) with
        | error e => rw [h4] at h; cases h
        | ok cv =>
          rw [h4] at h
          cases h5 : pyInt (getVal rec "card_bin" (Value.num 0)) with
          | error e => rw [h5] at h; cases h
          | ok cb =>
            rw [h5] at h
            cases h6 : pyFloat (getVal rec "chargeback_history" (Value.num 0)) with
            | error e => rw [h6] at h; cases h
            | ok ch =>
              rw [h6] at h
              cases h
              exact ⟨rfl, rfl, rfl, rfl, rfl, rfl, rfl, rfl, rfl, rfl, rfl⟩

/-- Extraction succeeds exactly when every fallible conversion succeeds. -/
lemma extract_isOk_iff (now : DateTime) (rec : RawRecord) :
    (extractFields now rec).isOk = true ↔
    ((pyFloat (getVal rec "amount" (Value.num 0))).isOk = true ∧
     (tsOf now rec).isOk = true ∧
     (pyInt (getVal rec "card_present" (Value.num 0))).isOk = true ∧
     (pyInt (getVal rec "cvv_present" (Value.num 0))).isOk = true ∧
     (pyInt (getVal rec "card_bin" (Value.num 0))).isOk = true ∧
     (pyFloat (getVal rec "chargeback_history" (Value.num 0))).isOk = true) := by
  unfold extractFields
  cases h1 : pyFloat (getVal rec "amount" (Value.num 0)) with
  | error e => simp [Except.isOk, Except.toBool]
  | ok a =>
    cases h2 : tsOf now rec with
    | error e => simp [Except.isOk, Except.toBool]
    | ok ts =>
      cases h3 : pyInt (getVal rec "card_present" (Value.num 0)) with
      | error e => simp [Except.isOk, Except.toBool]
      | ok cp =>
        cases h4 : pyInt (getVal rec "cvv_present" (Value.num 0)) with
        | error e => simp [Except.isOk, Except.toBool]
        | ok cv =>
          cases h5 : pyInt (getVal rec "card_bin" (Value.num 0)) with
          | error e => simp [Except.isOk, Except.toBool]
          | ok cb =>
            cases h6 : pyFloat (getVal rec "chargeback_history" (Value.num 0)) with
            | error e => simp [Except.isOk, Except.toBool]
            | ok ch => simp [Except.isOk, Except.toBool]

/-- Framing and scaling always succeed when the scaler's columns are all in
the schema. -/
lemma scaleAndFrame_isOk {schema : List String} {sc : ScalerState}
    (hsc : scalerOK schema sc) (row : String → ℚ) :
    (scaleAndFrame schema sc row).isOk = true := by
  cases hfn : sc.featureNames with
  | none => simp only [scaleAndFrame, hfn]; rfl
  | some cols =>
    simp only [scaleAndFrame, hfn]
    rw [if_pos (hsc cols hfn)]
    rfl

lemma ne_append_of_pfx_incomp (c p q w : String)
    (hc : p.data.isPrefixOf c.data = true)
    (h1 : p.data.isPrefixOf q.data = false)
    (h2 : q.data.isPrefixOf p.data = false) : c ≠ q ++ w := by
  intro he
  subst he
  have hp : p.data <+: q.data ++ w.data := by
    rw [← String.data_append]; exact List.isPrefixOf_iff_prefix.mp hc
  have hq2 : q.data <+: q.data ++ w.data := List.prefix_append q.data w.data
  rcases List.prefix_or_prefix_of_prefix hp hq2 with h | h
  · rw [List.isPrefixOf_iff_prefix.mpr h] at h1; exact Bool.noConfusion h1
  · rw [List.isPrefixOf_iff_prefix.mpr h] at h2; exact Bool.noConfusion h2

/-- Any column distinct from every name the fill phase writes keeps its
dense-zero initialisation. -/
lemma buildRow_at_zero (schema : List String) (fl : RawFields) (c : String)
    (n1 : c ≠ "amount") (n2 : c ≠ "chargeback_history") (n3 : c ≠ "transaction_hour")
    (n4 : c ≠ "transaction_day") (n5 : c ≠ "is_high_amount") (n6 : c ≠ "card_info_match")
    (n7 : c ≠ "card_present") (n8 : c ≠ "cvv_present")
    (n9 : c ≠ "merchant" ++ "_" ++ fl.merchant)
    (n10 : c ≠ "category" ++ "_" ++ fl.category)
    (n11 : c ≠ "location" ++ "_" ++ fl.location)
    (n12 : c ≠ "device" ++ "_" ++ fl.device) :
    buildRow schema fl c = 0 := by
  rw [buildRow_unfold, setIfKnown_at_ne _ _ _ n12, setIfKnown_at_ne _ _ _ n11,
    setIfKnown_at_ne _ _ _ n10, setIfKnown_at_ne _ _ _ n9, setIfKnown_at_ne _ _ _ n8,
    setIfKnown_at_ne _ _ _ n7, setIfKnown_at_ne _ _ _ n6, setIfKnown_at_ne _ _ _ n5,
    setIfKnown_at_ne _ _ _ n4, setIfKnown_at_ne _ _ _ n3, setIfKnown_at_ne _ _ _ n2,
    setIfKnown_at_ne _ _ _ n1]

/-- Removing the merchant field from a record leaves extraction identical except
that the merchant component becomes its default. -/
lemma extractFields_removeField_merchant (now : DateTime) (rec : RawRecord) :
    extractFields now (removeField "merchant" rec) =
    Except.map (fun fl : RawFields =>
      ⟨fl.amount, fl.category, "Unknown", fl.timestamp, fl.location, fl.device, fl.card_present, fl.cvv_present, fl.card_bin, fl.ip_address, fl.chargeback_history⟩) (extractFields now rec) := by
  have eamount : getVal (removeField "merchant" rec) "amount" (Value.num 0) = getVal rec "amount" (Value.num 0) :=
    getVal_removeField_ne (by decide) rec _
  have ecategory : getVal (removeField "merchant" rec) "category" (Value.str "Other") = getVal rec "category" (Value.str "Other") :=
    getVal_removeField_ne (by decide) rec _
  have emerchant : getVal (removeField "merchant" rec) "merchant" (Value.str "Unknown") = Value.str "Unknown" :=
    getVal_removeField_self "merchant" rec _
  have elocation : getVal (removeField "merchant" rec) "location" (Value.str "Unknown") = getVal rec "location" (Value.str "Unknown") :=
    getVal_removeField_ne (by decide) rec _
  have edevice : getVal (removeField "merchant" rec) "device" (Value.str "Unknown") = getVal rec "device" (Value.str "Unknown") :=
    getVal_removeField_ne (by decide) rec _
  have ecard_present : getVal (removeField "merchant" rec) "card_present" (Value.num 0) = getVal rec "card_present" (Value.num 0) :=
    getVal_removeField_ne (by decide) rec _
  have ecvv_present : getVal (removeField "merchant" rec) "cvv_present" (Value.num 0) = getVal rec "cvv_present" (Value.num 0) :=
    getVal_removeField_ne (by decide) rec _
  have ecard_bin : getVal (removeField "merchant" rec) "card_bin" (Value.num 0) = getVal rec "card_bin" (Value.num 0) :=
    getVal_removeField_ne (by decide) rec _
  have eip_address : getVal (removeField "merchant" rec) "ip_address" (Value.str "0.0.0.0") = getVal rec "ip_address" (Value.str "0.0.0.0") :=
    getVal_removeField_ne (by decide) rec _
  have echargeback_history : getVal (removeField "merchant" rec) "chargeback_history" (Value.num 0) = getVal rec "chargeback_history" (Value.num 0) :=
    getVal_removeField_ne (by decide) rec _
  have ets : tsOf now (removeField "merchant" rec) = tsOf now rec := by
    unfold tsOf; rw [lookupField_removeField_ne (by decide) rec]
  unfold extractFields
  rw [eamount, ecategory, emerchant, elocation, edevice, ecard_present, ecvv_present, ecard_bin, eip_address, echargeback_history, ets]
  cases pyFloat (getVal rec "amount" (Value.num 0)) with
  | error e => rfl
  | ok a =>
    cases tsOf now rec with
    | error e => rfl
    | ok ts =>
      cases pyInt (getVal rec "card_present" (Value.num 0)) with
      | error e => rfl
      | ok cp =>
        cases pyInt (getVal rec "cvv_present" (Value.num 0)) with
        | error e => rfl
        | ok cv =>
          cases pyInt (getVal rec "card_bin" (Value.num 0)) with
          | error e => rfl
          | ok cb =>
            cases pyFloat (getVal rec "chargeback_history" (Value.num 0)) with
            | error e => rfl
            | ok ch => rfl

/-- Removing the category field from a record leaves extraction identical except
that the category component becomes its default. -/
lemma extractFields_removeField_category (now : DateTime) (rec : RawRecord) :
    extractFields now (removeField "category" rec) =
    Except.map (fun fl : RawFields =>
      ⟨fl.amount, "Other", fl.merchant, fl.timestamp, fl.location, fl.device, fl.card_present, fl.cvv_present, fl.card_bin, fl.ip_address, fl.chargeback_history⟩) (extractFields now rec) := by
  have eamount : getVal (removeField "category" rec) "amount" (Value.num 0) = getVal rec "amount" (Value.num 0) :=
    getVal_removeField_ne (by decide) rec _
  have ecategory : getVal (removeField "category" rec) "category" (Value.str "Other") = Value.str "Other" :=
    getVal_removeField_self "category" rec _
  have emerchant : getVal (removeField "category" rec) "merchant" (Value.str "Unknown") = getVal rec "merchant" (Value.str "Unknown") :=
    getVal_removeField_ne (by decide) rec _
  have elocation : getVal (removeField "category" rec) "location" (Value.str "Unknown") = getVal rec "location" (Value.str "Unknown") :=
    getVal_removeField_ne (by decide) rec _
  have edevice : getVal (removeField "category" rec) "device" (Value.str "Unknown") = getVal rec "device" (Value.str "Unknown") :=
    getVal_removeField_ne (by decide) rec _
  have ecard_present : getVal (removeField "category" rec) "card_present" (Value.num 0) = getVal rec "card_present" (Value.num 0) :=
    getVal_removeField_ne (by decide) rec _
  have ecvv_present : getVal (removeField "category" rec) "cvv_present" (Value.num 0) = getVal rec "cvv_present" (Value.num 0) :=
    getVal_removeField_ne (by decide) rec _
  have ecard_bin : getVal (removeField "category" rec) "card_bin" (Value.num 0) = getVal rec "card_bin" (Value.num 0) :=
    getVal_removeField_ne (by decide) rec _
  have eip_address : getVal (removeField "category" rec) "ip_address" (Value.str "0.0.0.0") = getVal rec "ip_address" (Value.str "0.0.0.0") :=
    getVal_removeField_ne (by decide) rec _
  have echargeback_history : getVal (removeField "category" rec) "chargeback_history" (Value.num 0) = getVal rec "chargeback_history" (Value.num 0) :=
    getVal_removeField_ne (by decide) rec _
  have ets : tsOf now (removeField "category" rec) = tsOf now rec := by
    unfold tsOf; rw [lookupField_removeField_ne (by decide) rec]
  unfold extractFields
  rw [eamount, ecategory, emerchant, elocation, edevice, ecard_present, ecvv_present, ecard_bin, eip_address, echargeback_history, ets]
  cases pyFloat (getVal rec "amount" (Value.num 0)) with
  | error e => rfl
  | ok a =>
    cases tsOf now rec with
    | error e => rfl
    | ok ts =>
      cases pyInt (getVal rec "card_present" (Value.num 0)) with
      | error e => rfl
      | ok cp =>
        cases pyInt (getVal rec "cvv_present" (Value.num 0)) with
        | error e => rfl
        | ok cv =>
          cases pyInt (getVal rec "card_bin" (Value.num 0)) with
          | error e => rfl
          | ok cb =>
            cases pyFloat (getVal rec "chargeback_history" (Value.num 0)) with
            | error e => rfl
            | ok ch => rfl

/-- Removing the location field from a record leaves extraction identical except
that the location component becomes its default. -/
lemma extractFields_removeField_location (now : DateTime) (rec : RawRecord) :
    extractFields now (removeField "location" rec) =
    Except.map (fun fl : RawFields =>
      ⟨fl.amount, fl.category, fl.merchant, fl.timestamp, "Unknown", fl.device, fl.card_present, fl.cvv_present, fl.card_bin, fl.ip_address, fl.chargeback_history⟩) (extractFields now rec) := by
  have eamount : getVal (removeField "location" rec) "amount" (Value.num 0) = getVal rec "amount" (Value.num 0) :=
    getVal_removeField_ne (by decide) rec _
  have ecategory : getVal (removeField "location" rec) "category" (Value.str "Other") = getVal rec "category" (Value.str "Other") :=
    getVal_removeField_ne (by decide) rec _
  have emerchant : getVal (removeField "location" rec) "merchant" (Value.str "Unknown") = getVal rec "merchant" (Value.str "Unknown") :=
    getVal_removeField_ne (by decide) rec _
  have elocation : getVal (removeField "location" rec) "location" (Value.str "Unknown") = Value.str "Unknown" :=
    getVal_removeField_self "location" rec _
  have edevice : getVal (removeField "location" rec) "device" (Value.str "Unknown") = getVal rec "device" (Value.str "Unknown") :=
    getVal_removeField_ne (by decide) rec _
  have ecard_present : getVal (removeField "location" rec) "card_present" (Value.num 0) = getVal rec "card_present" (Value.num 0) :=
    getVal_removeField_ne (by decide) rec _
  have ecvv_present : getVal (removeField "location" rec) "cvv_present" (Value.num 0) = getVal rec "cvv_present" (Value.num 0) :=
    getVal_removeField_ne (by decide) rec _
  have ecard_bin : getVal (removeField "location" rec) "card_bin" (Value.num 0) = getVal rec "card_bin" (Value.num 0) :=
    getVal_removeField_ne (by decide) rec _
  have eip_address : getVal (removeField "location" rec) "ip_address" (Value.str "0.0.0.0") = getVal rec "ip_address" (Value.str "0.0.0.0") :=
    getVal_removeField_ne (by decide) rec _
  have echargeback_history : getVal (removeField "location" rec) "chargeback_history" (Value.num 0) = getVal rec "chargeback_history" (Value.num 0) :=
    getVal_removeField_ne (by decide) rec _
  have ets : tsOf now (removeField "location" rec) = tsOf now rec := by
    unfold tsOf; rw [lookupField_removeField_ne (by decide) rec]
  unfold extractFields
  rw [eamount, ecategory, emerchant, elocation, edevice, ecard_present, ecvv_present, ecard_bin, eip_address, echargeback_history, ets]
  cases pyFloat (getVal rec "amount" (Value.num 0)) with
  | error e => rfl
  | ok a =>
    cases tsOf now rec with
    | error e => rfl
    | ok ts =>
      cases pyInt (getVal rec "card_present" (Value.num 0)) with
      | error e => rfl
      | ok cp =>
        cases pyInt (getVal rec "cvv_present" (Value.num 0)) with
        | error e => rfl
        | ok cv =>
          cases pyInt (getVal rec "card_bin" (Value.num 0)) with
          | error e => rfl
          | ok cb =>
            cases pyFloat (getVal rec "chargeback_history" (Value.num 0)) with
            | error e => rfl
            | ok ch => rfl

/-- Removing the device field from a record leaves extraction identical except
that the device component becomes its default. -/
lemma extractFields_removeField_device (now : DateTime) (rec : RawRecord) :
    extractFields now (removeField "device" rec) =
    Except.map (fun fl : RawFields =>
      ⟨fl.amount, fl.category, fl.merchant, fl.timestamp, fl.location, "Unknown", fl.card_present, fl.cvv_present, fl.card_bin, fl.ip_address, fl.chargeback_history⟩) (extractFields now rec) := by
  have eamount : getVal (removeField "device" rec) "amount" (Value.num 0) = getVal rec "amount" (Value.num 0) :=
    getVal_removeField_ne (by decide) rec _
  have ecategory : getVal (removeField "device" rec) "category" (Value.str "Other") = getVal rec "category" (Value.str "Other") :=
    getVal_removeField_ne (by decide) rec _
  have emerchant : getVal (removeField "device" rec) "merchant" (Value.str "Unknown") = getVal rec "merchant" (Value.str "Unknown") :=
    getVal_removeField_ne (by decide) rec _
  have elocation : getVal (removeField "device" rec) "location" (Value.str "Unknown") = getVal rec "location" (Value.str "Unknown") :=
    getVal_removeField_ne (by decide) rec _
  have edevice : getVal (removeField "device" rec) "device" (Value.str "Unknown") = Value.str "Unknown" :=
    getVal_removeField_self "device" rec _
  have ecard_present : getVal (removeField "device" rec) "card_present" (Value.num 0) = getVal rec "card_present" (Value.num 0) :=
    getVal_removeField_ne (by decide) rec _
  have ecvv_present : getVal (removeField "device" rec) "cvv_present" (Value.num 0) = getVal rec "cvv_present" (Value.num 0) :=
    getVal_removeField_ne (by decide) rec _
  have ecard_bin : getVal (removeField "device" rec) "card_bin" (Value.num 0) = getVal rec "card_bin" (Value.num 0) :=
    getVal_removeField_ne (by decide) rec _
  have eip_address : getVal (removeField "device" rec) "ip_address" (Value.str "0.0.0.0") = getVal rec "ip_address" (Value.str "0.0.0.0") :=
    getVal_removeField_ne (by decide) rec _
  have echargeback_history : getVal (removeField "device" rec) "chargeback_history" (Value.num 0) = getVal rec "chargeback_history" (Value.num 0) :=
    getVal_removeField_ne (by decide) rec _
  have ets : tsOf now (removeField "device" rec) = tsOf now rec := by
    unfold tsOf; rw [lookupField_removeField_ne (by decide) rec]
  unfold extractFields
  rw [eamount, ecategory, emerchant, elocation, edevice, ecard_present, ecvv_present, ecard_bin, eip_address, echargeback_history, ets]
  cases pyFloat (getVal rec "amount" (Value.num 0)) with
  | error e => rfl
  | ok a =>
    cases tsOf now rec with
    | error e => rfl
    | ok ts =>
      cases pyInt (getVal rec "card_present" (Value.num 0)) with
      | error e => rfl
      | ok cp =>
        cases pyInt (getVal rec "cvv_present" (Value.num 0)) with
        | error e => rfl
        | ok cv =>
          cases pyInt (getVal rec "card_bin" (Value.num 0)) with
          | error e => rfl
          | ok cb =>
            cases pyFloat (getVal rec "chargeback_history" (Value.num 0)) with
            | error e => rfl
            | ok ch => rfl

/-- Two merchant values whose one-hot columns are both outside the schema yield
the same row. -/
lemma buildRow_merchant_swap (schema : List String) (a : ℚ) (x1 x2 : String)
    (ts : DateTime) (cat loc dev ip : String) (cp cv cb : ℤ) (ch : ℚ)
    (hA : ("merchant" ++ "_" ++ x1) ∉ schema) (hB : ("merchant" ++ "_" ++ x2) ∉ schema) :
    buildRow schema ⟨a, cat, x1, ts, loc, dev, cp, cv, cb, ip, ch⟩ =
    buildRow schema ⟨a, cat, x2, ts, loc, dev, cp, cv, cb, ip, ch⟩ := by
  rw [buildRow_unfold, buildRow_unfold]
  dsimp only
  rw [setIfKnown_not_mem _ _ hA, setIfKnown_not_mem _ _ hB]

/-- Two category values whose one-hot columns are both outside the schema yield
the same row. -/
lemma buildRow_category_swap (schema : List String) (a : ℚ) (x1 x2 : String)
    (ts : DateTime) (mer loc dev ip : String) (cp cv cb : ℤ) (ch : ℚ)
    (hA : ("category" ++ "_" ++ x1) ∉ schema) (hB : ("category" ++ "_" ++ x2) ∉ schema) :
    buildRow schema ⟨a, x1, mer, ts, loc, dev, cp, cv, cb, ip, ch⟩ =
    buildRow schema ⟨a, x2, mer, ts, loc, dev, cp, cv, cb, ip, ch⟩ := by
  rw [buildRow_unfold, buildRow_unfold]
  dsimp only
  rw [setIfKnown_not_mem _ _ hA, setIfKnown_not_mem _ _ hB]

/-- Two location values whose one-hot columns are both outside the schema yield
the same row. -/
lemma buildRow_location_swap (schema : List String) (a : ℚ) (x1 x2 : String)
    (ts : DateTime) (cat mer dev ip : String) (cp cv cb : ℤ) (ch : ℚ)
    (hA : ("location" ++ "_" ++ x1) ∉ schema) (hB : ("location" ++ "_" ++ x2) ∉ schema) :
    buildRow schema ⟨a, cat, mer, ts, x1, dev, cp, cv, cb, ip, ch⟩ =
    buildRow schema ⟨a, cat, mer, ts, x2, dev, cp, cv, cb, ip, ch⟩ := by
  rw [buildRow_unfold, buildRow_unfold]
  dsimp only
  rw [setIfKnown_not_mem _ _ hA, setIfKnown_not_mem _ _ hB]

/-- Two device values whose one-hot columns are both outside the schema yield
the same row. -/
lemma buildRow_device_swap (schema : List String) (a : ℚ) (x1 x2 : String)
    (ts : DateTime) (cat mer loc ip : String) (cp cv cb : ℤ) (ch : ℚ)
    (hA : ("device" ++ "_" ++ x1) ∉ schema) (hB : ("device" ++ "_" ++ x2) ∉ schema) :
    buildRow schema ⟨a, cat, mer, ts, loc, x1, cp, cv, cb, ip, ch⟩ =
    buildRow schema ⟨a, cat, mer, ts, loc, x2, cp, cv, cb, ip, ch⟩ := by
  rw [buildRow_unfold, buildRow_unfold]
  dsimp only
  rw [setIfKnown_not_mem _ _ hA, setIfKnown_not_mem _ _ hB]

/-- C1: for every raw input record, whatever fields are present, absent or
unseen, a Feature Vector returned by prepare_features_from_raw has exactly
the Schema Registry's columns (TRAIN_COLUMNS), in exactly that order. -/
theorem feature_vector_columns_match_schema
    (schema : List String) (sc : ScalerState) (now : DateTime) (rec : RawRecord)
    (vec : List (String × ℚ))
    (h : prepare_features_from_raw schema sc now rec = .ok vec) :
    vec.map Prod.fst = schema := by
  unfold prepare_features_from_raw at h
  cases he : extractFields now rec with
  | error e => rw [he] at h; cases h
  | ok fl =>
    rw [he] at h
    dsimp only at h
    cases hfn : sc.featureNames with
    | none =>
      simp only [scaleAndFrame, hfn, Except.ok.injEq] at h
      subst h
      rw [List.map_map]
      exact List.map_id schema
    | some cols =>
      simp only [scaleAndFrame, hfn] at h
      by_cases hall : ∀ c ∈ cols, c ∈ schema
      · rw [if_pos hall] at h
        simp only [Except.ok.injEq] at h
        subst h
        rw [List.map_map]
        exact List.map_id schema
      · rw [if_neg hall] at h; cases h

/-- C1 witness: the theorem applied to a concrete schema, scaler, time and
record. -/
theorem feature_vector_columns_match_schema_witness :
    ([("amount", (0 : ℚ))]).map Prod.fst = ["amount"] :=
  feature_vector_columns_match_schema ["amount"] scalerNone epochDT []
    [("amount", 0)] (by decide)

/-- C2 counterexample: a record whose timestamp parses fine but whose amount
is a non-numeric string makes the aligner raise a float-conversion error, so
an unparseable timestamp is not the only raising failure mode and a
malformed amount is not absorbed by a default. -/
theorem nontimestamp_conversion_raises_cx :
    prepare_features_from_raw [] scalerNone epochDT
      [("amount", Value.str "abc"), ("timestamp", Value.str "2025-10-10T14:30:00")] =
      .error "could not convert string to float: abc" ∧
    pdToDatetime (Value.str "2025-10-10T14:30:00") = .ok ⟨2025, 10, 10, 14, 30, 0⟩ :=
  ⟨by decide, by decide⟩

/-- C2 amended: given a scaler whose columns all occur in the schema, the
aligner succeeds exactly when the timestamp (when present) parses and the
five numeric fields (when present) convert; absent fields take defaults,
which always convert, so a missing field never raises. -/
theorem aligner_failure_modes_amended
    (schema : List String) (sc : ScalerState) (now : DateTime) (rec : RawRecord)
    (hsc : scalerOK schema sc) :
    (prepare_features_from_raw schema sc now rec).isOk = true ↔
    ((pyFloat (getVal rec "amount" (Value.num 0))).isOk = true ∧
     (tsOf now rec).isOk = true ∧
     (pyInt (getVal rec "card_present" (Value.num 0))).isOk = true ∧
     (pyInt (getVal rec "cvv_present" (Value.num 0))).isOk = true ∧
     (pyInt (getVal rec "card_bin" (Value.num 0))).isOk = true ∧
     (pyFloat (getVal rec "chargeback_history" (Value.num 0))).isOk = true) := by
  rw [← extract_isOk_iff]
  constructor
  · intro h
    unfold prepare_features_from_raw at h
    cases he : extractFields now rec with
    | error e => rw [he] at h; simp [Except.isOk, Except.toBool] at h
    | ok fl => rfl
  · intro h
    cases he : extractFields now rec with
    | error e => rw [he] at h; simp [Except.isOk, Except.toBool] at h
    | ok fl =>
      unfold prepare_features_from_raw
      rw [he]
      exact scaleAndFrame_isOk hsc _

/-- C2 amended witness: the empty record (all fields missing) aligns
successfully, by the amended theorem. -/
theorem aligner_failure_modes_amended_witness :
    (prepare_features_from_raw ["amount"] scalerNone epochDT []).isOk = true :=
  (aligner_failure_modes_amended ["amount"] scalerNone epochDT []
    (fun _ hc => nomatch hc)).mpr (by decide)

/-- C3 counterexample: on a record with no timestamp field the aligner reads
the wall clock, so two calls with identical inputs and loaded state can
return different Feature Vectors. -/
theorem align_depends_on_clock_cx :
    prepare_features_from_raw ["transaction_hour"] scalerNone epochDT [] ≠
    prepare_features_from_raw ["transaction_hour"] scalerNone laterDT [] := by
  decide

/-- C3 amended: whenever the record carries a timestamp field, the aligner
is a deterministic function of the record, the schema and the scaler: the
wall-clock parameter cannot influence the result. -/
theorem align_deterministic_given_timestamp
    (schema : List String) (sc : ScalerState) (now1 now2 : DateTime)
    (rec : RawRecord) (v : Value) (hv : lookupField "timestamp" rec = some v) :
    prepare_features_from_raw schema sc now1 rec =
    prepare_features_from_raw schema sc now2 rec := by
  have hts : extractFields now1 rec = extractFields now2 rec := by
    unfold extractFields
    rw [tsOf_some now1 hv, tsOf_some now2 hv]
  unfold prepare_features_from_raw
  rw [hts]

/-- C3 amended witness: two runs at different wall-clock times agree on a
record that has a timestamp. -/
theorem align_deterministic_given_timestamp_witness :
    prepare_features_from_raw ["transaction_hour"] scalerNone epochDT recTsOnly =
    prepare_features_from_raw ["transaction_hour"] scalerNone laterDT recTsOnly :=
  align_deterministic_given_timestamp ["transaction_hour"] scalerNone epochDT laterDT
    recTsOnly (Value.str "2025-10-10T14:30:00") (by decide)

/-- C6: every field absent from the record is replaced by its declared
default during extraction: amount 0.0, category "Other", merchant "Unknown",
timestamp the current time, location "Unknown", device "Unknown",
card_present 0, cvv_present 0, card_bin 0, ip_address "0.0.0.0",
chargeback_history 0. -/
theorem missing_fields_defaults
    (now : DateTime) (rec : RawRecord) (fl : RawFields)
    (hex : extractFields now rec = .ok fl) :
    (lookupField "amount" rec = none → fl.amount = 0) ∧
    (lookupField "category" rec = none → fl.category = "Other") ∧
    (lookupField "merchant" rec = none → fl.merchant = "Unknown") ∧
    (lookupField "timestamp" rec = none → fl.timestamp = now) ∧
    (lookupField "location" rec = none → fl.location = "Unknown") ∧
    (lookupField "device" rec = none → fl.device = "Unknown") ∧
    (lookupField "card_present" rec = none → fl.card_present = 0) ∧
    (lookupField "cvv_present" rec = none → fl.cvv_present = 0) ∧
    (lookupField "card_bin" rec = none → fl.card_bin = 0) ∧
    (lookupField "ip_address" rec = none → fl.ip_address = "0.0.0.0") ∧
    (lookupField "chargeback_history" rec = none → fl.chargeback_history = 0) := by
  obtain ⟨h1, h2, h3, h4, h5, h6, h7, h8, h9, h10, h11⟩ := extract_ok_components hex
  refine ⟨?_, ?_, ?_, ?_, ?_, ?_, ?_, ?_, ?_, ?_, ?_⟩
  · intro hn
    simp only [getVal, hn, Option.getD_none, pyFloat, Except.ok.injEq] at h1
    exact h1.symm
  · intro hn
    simp only [getVal, hn, Option.getD_none, pyStr] at h2
    exact h2
  · intro hn
    simp only [getVal, hn, Option.getD_none, pyStr] at h3
    exact h3
  · intro hn
    rw [tsOf_none now hn] at h4
    simp only [Except.ok.injEq] at h4
    exact h4.symm
  · intro hn
    simp only [getVal, hn, Option.getD_none, pyStr] at h5
    exact h5
  · intro hn
    simp only [getVal, hn, Option.getD_none, pyStr] at h6
    exact h6
  · intro hn
    simp only [getVal, hn, Option.getD_none, pyInt, pyTrunc, Except.ok.injEq] at h7
    norm_num at h7
    exact h7.symm
  · intro hn
    simp only [getVal, hn, Option.getD_none, pyInt, pyTrunc, Except.ok.injEq] at h8
    norm_num at h8
    exact h8.symm
  · intro hn
    simp only [getVal, hn, Option.getD_none, pyInt, pyTrunc, Except.ok.injEq] at h9
    norm_num at h9
    exact h9.symm
  · intro hn
    simp only [getVal, hn, Option.getD_none, pyStr] at h10
    exact h10
  · intro hn
    simp only [getVal, hn, Option.getD_none, pyFloat, Except.ok.injEq] at h11
    exact h11.symm

/-- C6 witness: the empty record extracts to exactly the declared defaults. -/
theorem missing_fields_defaults_witness :
    (lookupField "amount" [] = none → flDefault.amount = 0) ∧
    (lookupField "category" [] = none → flDefault.category = "Other") ∧
    (lookupField "merchant" [] = none → flDefault.merchant = "Unknown") ∧
    (lookupField "timestamp" [] = none → flDefault.timestamp = epochDT) ∧
    (lookupField "location" [] = none → flDefault.location = "Unknown") ∧
    (lookupField "device" [] = none → flDefault.device = "Unknown") ∧
    (lookupField "card_present" [] = none → flDefault.card_present = 0) ∧
    (lookupField "cvv_present" [] = none → flDefault.cvv_present = 0) ∧
    (lookupField "card_bin" [] = none → flDefault.card_bin = 0) ∧
    (lookupField "ip_address" [] = none → flDefault.ip_address = "0.0.0.0") ∧
    (lookupField "chargeback_history" [] = none → flDefault.chargeback_history = 0) :=
  missing_fields_defaults epochDT [] flDefault (by decide)

/-- C7: on success the aligner applies the scaler's per-column transform
(x - mean) / scale to exactly the columns the scaler was fitted on, and
every other schema column keeps the value it had before scaling. -/
theorem scaler_frame_effect
    (schema : List String) (sc : ScalerState) (now : DateTime) (rec : RawRecord)
    (fl : RawFields) (cols : List String)
    (hex : extractFields now rec = .ok fl)
    (hfn : sc.featureNames = some cols)
    (hcols : ∀ c ∈ cols, c ∈ schema) :
    prepare_features_from_raw schema sc now rec =
      .ok (schema.map fun c =>
        (c, if c ∈ cols then (buildRow schema fl c - sc.mean c) / sc.scale c
            else buildRow schema fl c)) := by
  unfold prepare_features_from_raw
  rw [hex]
  dsimp only
  simp only [scaleAndFrame, hfn]
  rw [if_pos hcols]

/-- C7 witness: the theorem applied to a one-column schema scaled by a
mean-0 scale-1 scaler. -/
theorem scaler_frame_effect_witness :
    prepare_features_from_raw ["amount"] scalerAmount epochDT [] =
      .ok (["amount"].map fun c =>
        (c, if c ∈ ["amount"] then
              (buildRow ["amount"] flDefault c - scalerAmount.mean c) / scalerAmount.scale c
            else buildRow ["amount"] flDefault c)) :=
  scaler_frame_effect ["amount"] scalerAmount epochDT [] flDefault ["amount"]
    (by decide) rfl (by decide)

/-- C5: for every record with a parseable timestamp that extracts
successfully, the aligner fills transaction_hour and transaction_day from
the parsed timestamp, is_high_amount as 1 when amount exceeds the fixed
threshold 500 and 0 otherwise, and card_info_match as 1 exactly when both
card_present and cvv_present are truthy. -/
theorem derived_features_correct
    (schema : List String) (now : DateTime) (rec : RawRecord) (fl : RawFields)
    (v : Value) (hv : lookupField "timestamp" rec = some v)
    (hex : extractFields now rec = .ok fl) :
    pdToDatetime v = .ok fl.timestamp ∧
    ("transaction_hour" ∈ schema →
      buildRow schema fl "transaction_hour" = (fl.timestamp.hour : ℚ)) ∧
    ("transaction_day" ∈ schema →
      buildRow schema fl "transaction_day" = (fl.timestamp.day : ℚ)) ∧
    ("is_high_amount" ∈ schema →
      buildRow schema fl "is_high_amount" = (if fl.amount > 500 then 1 else 0)) ∧
    ("card_info_match" ∈ schema →
      buildRow schema fl "card_info_match" =
        (if fl.card_present ≠ 0 ∧ fl.cvv_present ≠ 0 then 1 else 0)) := by
  obtain ⟨-, -, -, hts, -, -, -, -, -, -, -⟩ := extract_ok_components hex
  refine ⟨by rw [← tsOf_some now hv]; exact hts, ?_, ?_, ?_, ?_⟩
  · intro hc
    rw [buildRow_unfold,
      setIfKnown_at_ne _ _ _ (ne_append_of_not_pfx fl.device
        (by decide) : ("transaction_hour" : String) ≠ "device" ++ "_" ++ fl.device),
      setIfKnown_at_ne _ _ _ (ne_append_of_not_pfx fl.location
        (by decide) : ("transaction_hour" : String) ≠ "location" ++ "_" ++ fl.location),
      setIfKnown_at_ne _ _ _ (ne_append_of_not_pfx fl.category
        (by decide) : ("transaction_hour" : String) ≠ "category" ++ "_" ++ fl.category),
      setIfKnown_at_ne _ _ _ (ne_append_of_not_pfx fl.merchant
        (by decide) : ("transaction_hour" : String) ≠ "merchant" ++ "_" ++ fl.merchant),
      setIfKnown_at_ne _ _ _ (by decide : ("transaction_hour" : String) ≠ "cvv_present"),
      setIfKnown_at_ne _ _ _ (by decide : ("transaction_hour" : String) ≠ "card_present"),
      setIfKnown_at_ne _ _ _ (by decide : ("transaction_hour" : String) ≠ "card_info_match"),
      setIfKnown_at_ne _ _ _ (by decide : ("transaction_hour" : String) ≠ "is_high_amount"),
      setIfKnown_at_ne _ _ _ (by decide : ("transaction_hour" : String) ≠ "transaction_day"),
      setIfKnown_at_mem _ _ _ hc]
  · intro hc
    rw [buildRow_unfold,
      setIfKnown_at_ne _ _ _ (ne_append_of_not_pfx fl.device
        (by decide) : ("transaction_day" : String) ≠ "device" ++ "_" ++ fl.device),
      setIfKnown_at_ne _ _ _ (ne_append_of_not_pfx fl.location
        (by decide) : ("transaction_day" : String) ≠ "location" ++ "_" ++ fl.location),
      setIfKnown_at_ne _ _ _ (ne_append_of_not_pfx fl.category
        (by decide) : ("transaction_day" : String) ≠ "category" ++ "_" ++ fl.category),
      setIfKnown_at_ne _ _ _ (ne_append_of_not_pfx fl.merchant
        (by decide) : ("transaction_day" : String) ≠ "merchant" ++ "_" ++ fl.merchant),
      setIfKnown_at_ne _ _ _ (by decide : ("transaction_day" : String) ≠ "cvv_present"),
      setIfKnown_at_ne _ _ _ (by decide : ("transaction_day" : String) ≠ "card_present"),
      setIfKnown_at_ne _ _ _ (by decide : ("transaction_day" : String) ≠ "card_info_match"),
      setIfKnown_at_ne _ _ _ (by decide : ("transaction_day" : String) ≠ "is_high_amount"),
      setIfKnown_at_mem _ _ _ hc]
  · intro hc
    rw [buildRow_unfold,
      setIfKnown_at_ne _ _ _ (ne_append_of_not_pfx fl.device
        (by decide) : ("is_high_amount" : String) ≠ "device" ++ "_" ++ fl.device),
      setIfKnown_at_ne _ _ _ (ne_append_of_not_pfx fl.location
        (by decide) : ("is_high_amount" : String) ≠ "location" ++ "_" ++ fl.location),
      setIfKnown_at_ne _ _ _ (ne_append_of_not_pfx fl.category
        (by decide) : ("is_high_amount" : String) ≠ "category" ++ "_" ++ fl.category),
      setIfKnown_at_ne _ _ _ (ne_append_of_not_pfx fl.merchant
        (by decide) : ("is_high_amount" : String) ≠ "merchant" ++ "_" ++ fl.merchant),
      setIfKnown_at_ne _ _ _ (by decide : ("is_high_amount" : String) ≠ "cvv_present"),
      setIfKnown_at_ne _ _ _ (by decide : ("is_high_amount" : String) ≠ "card_present"),
      setIfKnown_at_ne _ _ _ (by decide : ("is_high_amount" : String) ≠ "card_info_match"),
      setIfKnown_at_mem _ _ _ hc]
  · intro hc
    rw [buildRow_unfold,
      setIfKnown_at_ne _ _ _ (ne_append_of_not_pfx fl.device
        (by decide) : ("card_info_match" : String) ≠ "device" ++ "_" ++ fl.device),
      setIfKnown_at_ne _ _ _ (ne_append_of_not_pfx fl.location
        (by decide) : ("card_info_match" : String) ≠ "location" ++ "_" ++ fl.location),
      setIfKnown_at_ne _ _ _ (ne_append_of_not_pfx fl.category
        (by decide) : ("card_info_match" : String) ≠ "category" ++ "_" ++ fl.category),
      setIfKnown_at_ne _ _ _ (ne_append_of_not_pfx fl.merchant
        (by decide) : ("card_info_match" : String) ≠ "merchant" ++ "_" ++ fl.merchant),
      setIfKnown_at_ne _ _ _ (by decide : ("card_info_match" : String) ≠ "cvv_present"),
      setIfKnown_at_ne _ _ _ (by decide : ("card_info_match" : String) ≠ "card_present"),
      setIfKnown_at_mem _ _ _ hc]

/-- C5 witness: the derived-feature equations on a concrete timestamped
record over the four derived columns. -/
theorem derived_features_correct_witness :
    pdToDatetime (Value.str "2025-10-10T14:30:00") = .ok flTsOnly.timestamp ∧
    ("transaction_hour" ∈ schemaDerived →
      buildRow schemaDerived flTsOnly "transaction_hour" = (flTsOnly.timestamp.hour : ℚ)) ∧
    ("transaction_day" ∈ schemaDerived →
      buildRow schemaDerived flTsOnly "transaction_day" = (flTsOnly.timestamp.day : ℚ)) ∧
    ("is_high_amount" ∈ schemaDerived →
      buildRow schemaDerived flTsOnly "is_high_amount" =
        (if flTsOnly.amount > 500 then 1 else 0)) ∧
    ("card_info_match" ∈ schemaDerived →
      buildRow schemaDerived flTsOnly "card_info_match" =
        (if flTsOnly.card_present ≠ 0 ∧ flTsOnly.cvv_present ≠ 0 then 1 else 0)) :=
  derived_features_correct schemaDerived epochDT recTsOnly flTsOnly
    (Value.str "2025-10-10T14:30:00") (by decide) (by decide)

/-- C4 amended: when a categorical field carries a value whose one-hot
column is not in the Schema Registry, and the field's default value is also
unseen, the Feature Vector equals the one for the same record with that
field omitted; and provided the scaler touches no one-hot column of that
field, every one-hot column of that field in the produced vector is 0. -/
theorem unseen_categorical_dropped_amended
    (schema : List String) (sc : ScalerState) (now : DateTime) (rec : RawRecord)
    (f : String) (v : Value)
    (hf : f = "merchant" ∨ f = "category" ∨ f = "location" ∨ f = "device")
    (hv : lookupField f rec = some v)
    (h1 : (f ++ "_" ++ pyStr v) ∉ schema)
    (h2 : (f ++ "_" ++ catDefault f) ∉ schema)
    (hsc : ∀ cols, sc.featureNames = some cols →
      ∀ c ∈ cols, (f ++ "_").data.isPrefixOf c.data = false) :
    prepare_features_from_raw schema sc now rec =
      prepare_features_from_raw schema sc now (removeField f rec) ∧
    ∀ vec, prepare_features_from_raw schema sc now rec = .ok vec →
      ∀ pr ∈ vec, (f ++ "_").data.isPrefixOf pr.1.data = true → pr.2 = 0 := by
  rcases hf with hf | hf | hf | hf <;> subst hf
  · rw [show catDefault "merchant" = "Unknown" from rfl] at h2
    constructor
    · unfold prepare_features_from_raw
      rw [extractFields_removeField_merchant now rec]
      cases he : extractFields now rec with
      | error e => rfl
      | ok fl =>
        dsimp only [Except.map]
        obtain ⟨-, -, hFc, -, -, -, -, -, -, -, -⟩ := extract_ok_components he
        have hmv : fl.merchant = pyStr v := by
          rw [hFc]; unfold getVal; rw [hv, Option.getD_some]
        have hrow : buildRow schema fl = buildRow schema
            ⟨fl.amount, fl.category, "Unknown", fl.timestamp, fl.location, fl.device, fl.card_present, fl.cvv_present, fl.card_bin, fl.ip_address, fl.chargeback_history⟩ :=
          buildRow_merchant_swap schema fl.amount fl.merchant "Unknown" fl.timestamp fl.category fl.location fl.device fl.ip_address fl.card_present fl.cvv_present fl.card_bin fl.chargeback_history
            (by rw [hmv]; exact h1) h2
        rw [hrow]
    · intro vec hok pr hpr hpfx
      unfold prepare_features_from_raw at hok
      cases he : extractFields now rec with
      | error e => rw [he] at hok; cases hok
      | ok fl =>
        rw [he] at hok
        dsimp only at hok
        obtain ⟨-, -, hFc, -, -, -, -, -, -, -, -⟩ := extract_ok_components he
        have hmv : fl.merchant = pyStr v := by
          rw [hFc]; unfold getVal; rw [hv, Option.getD_some]
        cases hfn : sc.featureNames with
        | none =>
          simp only [scaleAndFrame, hfn, Except.ok.injEq] at hok
          subst hok
          obtain ⟨c, hcmem, rfl⟩ := List.mem_map.mp hpr
          dsimp only at hpfx ⊢
          have own : c ≠ "merchant" ++ "_" ++ fl.merchant := by
            intro he2
            apply h1
            rw [← hmv, ← he2]
            exact hcmem
          exact buildRow_at_zero schema fl c
              (strPfx_ne_lit "amount" hpfx (by decide))
              (strPfx_ne_lit "chargeback_history" hpfx (by decide))
              (strPfx_ne_lit "transaction_hour" hpfx (by decide))
              (strPfx_ne_lit "transaction_day" hpfx (by decide))
              (strPfx_ne_lit "is_high_amount" hpfx (by decide))
              (strPfx_ne_lit "card_info_match" hpfx (by decide))
              (strPfx_ne_lit "card_present" hpfx (by decide))
              (strPfx_ne_lit "cvv_present" hpfx (by decide))
              own
              (ne_append_of_pfx_incomp c ("merchant" ++ "_") ("category" ++ "_") fl.category hpfx (by decide) (by decide))
              (ne_append_of_pfx_incomp c ("merchant" ++ "_") ("location" ++ "_") fl.location hpfx (by decide) (by decide))
              (ne_append_of_pfx_incomp c ("merchant" ++ "_") ("device" ++ "_") fl.device hpfx (by decide) (by decide))
        | some cols =>
          simp only [scaleAndFrame, hfn] at hok
          by_cases hall : ∀ c2 ∈ cols, c2 ∈ schema
          · rw [if_pos hall] at hok
            simp only [Except.ok.injEq] at hok
            subst hok
            obtain ⟨c, hcmem, rfl⟩ := List.mem_map.mp hpr
            dsimp only at hpfx ⊢
            have own : c ≠ "merchant" ++ "_" ++ fl.merchant := by
              intro he2
              apply h1
              rw [← hmv, ← he2]
              exact hcmem
            have hcn : c ∉ cols := by
              intro hcc
              have hfalse := hsc cols hfn c hcc
              rw [hfalse] at hpfx
              exact Bool.noConfusion hpfx
            rw [if_neg hcn]
            exact buildRow_at_zero schema fl c
              (strPfx_ne_lit "amount" hpfx (by decide))
              (strPfx_ne_lit "chargeback_history" hpfx (by decide))
              (strPfx_ne_lit "transaction_hour" hpfx (by decide))
              (strPfx_ne_lit "transaction_day" hpfx (by decide))
              (strPfx_ne_lit "is_high_amount" hpfx (by decide))
              (strPfx_ne_lit "card_info_match" hpfx (by decide))
              (strPfx_ne_lit "card_present" hpfx (by decide))
              (strPfx_ne_lit "cvv_present" hpfx (by decide))
              own
              (ne_append_of_pfx_incomp c ("merchant" ++ "_") ("category" ++ "_") fl.category hpfx (by decide) (by decide))
              (ne_append_of_pfx_incomp c ("merchant" ++ "_") ("location" ++ "_") fl.location hpfx (by decide) (by decide))
              (ne_append_of_pfx_incomp c ("merchant" ++ "_") ("device" ++ "_") fl.device hpfx (by decide) (by decide))
          · rw [if_neg hall] at hok; cases hok
  · rw [show catDefault "category" = "Other" from rfl] at h2
    constructor
    · unfold prepare_features_from_raw
      rw [extractFields_removeField_category now rec]
      cases he : extractFields now rec with
      | error e => rfl
      | ok fl =>
        dsimp only [Except.map]
        obtain ⟨-, hFc, -, -, -, -, -, -, -, -, -⟩ := extract_ok_components he
        have hmv : fl.category = pyStr v := by
          rw [hFc]; unfold getVal; rw [hv, Option.getD_some]
        have hrow : buildRow schema fl = buildRow schema
            ⟨fl.amount, "Other", fl.merchant, fl.timestamp, fl.location, fl.device, fl.card_present, fl.cvv_present, fl.card_bin, fl.ip_address, fl.chargeback_history⟩ :=
          buildRow_category_swap schema fl.amount fl.category "Other" fl.timestamp fl.merchant fl.location fl.device fl.ip_address fl.card_present fl.cvv_present fl.card_bin fl.chargeback_history
            (by rw [hmv]; exact h1) h2
        rw [hrow]
    · intro vec hok pr hpr hpfx
      unfold prepare_features_from_raw at hok
      cases he : extractFields now rec with
      | error e => rw [he] at hok; cases hok
      | ok fl =>
        rw [he] at hok
        dsimp only at hok
        obtain ⟨-, hFc, -, -, -, -, -, -, -, -, -⟩ := extract_ok_components he
        have hmv : fl.category = pyStr v := by
          rw [hFc]; unfold getVal; rw [hv, Option.getD_some]
        cases hfn : sc.featureNames with
        | none =>
          simp only [scaleAndFrame, hfn, Except.ok.injEq] at hok
          subst hok
          obtain ⟨c, hcmem, rfl⟩ := List.mem_map.mp hpr
          dsimp only at hpfx ⊢
          have own : c ≠ "category" ++ "_" ++ fl.category := by
            intro he2
            apply h1
            rw [← hmv, ← he2]
            exact hcmem
          exact buildRow_at_zero schema fl c
              (strPfx_ne_lit "amount" hpfx (by decide))
              (strPfx_ne_lit "chargeback_history" hpfx (by decide))
              (strPfx_ne_lit "transaction_hour" hpfx (by decide))
              (strPfx_ne_lit "transaction_day" hpfx (by decide))
              (strPfx_ne_lit "is_high_amount" hpfx (by decide))
              (strPfx_ne_lit "card_info_match" hpfx (by decide))
              (strPfx_ne_lit "card_present" hpfx (by decide))
              (strPfx_ne_lit "cvv_present" hpfx (by decide))
              (ne_append_of_pfx_incomp c ("category" ++ "_") ("merchant" ++ "_") fl.merchant hpfx (by decide) (by decide))
              own
              (ne_append_of_pfx_incomp c ("category" ++ "_") ("location" ++ "_") fl.location hpfx (by decide) (by decide))
              (ne_append_of_pfx_incomp c ("category" ++ "_") ("device" ++ "_") fl.device hpfx (by decide) (by decide))
        | some cols =>
          simp only [scaleAndFrame, hfn] at hok
          by_cases hall : ∀ c2 ∈ cols, c2 ∈ schema
          · rw [if_pos hall] at hok
            simp only [Except.ok.injEq] at hok
            subst hok
            obtain ⟨c, hcmem, rfl⟩ := List.mem_map.mp hpr
            dsimp only at hpfx ⊢
            have own : c ≠ "category" ++ "_" ++ fl.category := by
              intro he2
              apply h1
              rw [← hmv, ← he2]
              exact hcmem
            have hcn : c ∉ cols := by
              intro hcc
              have hfalse := hsc cols hfn c hcc
              rw [hfalse] at hpfx
              exact Bool.noConfusion hpfx
            rw [if_neg hcn]
            exact buildRow_at_zero schema fl c
              (strPfx_ne_lit "amount" hpfx (by decide))
              (strPfx_ne_lit "chargeback_history" hpfx (by decide))
              (strPfx_ne_lit "transaction_hour" hpfx (by decide))
              (strPfx_ne_lit "transaction_day" hpfx (by decide))
              (strPfx_ne_lit "is_high_amount" hpfx (by decide))
              (strPfx_ne_lit "card_info_match" hpfx (by decide))
              (strPfx_ne_lit "card_present" hpfx (by decide))
              (strPfx_ne_lit "cvv_present" hpfx (by decide))
              (ne_append_of_pfx_incomp c ("category" ++ "_") ("merchant" ++ "_") fl.merchant hpfx (by decide) (by decide))
              own
              (ne_append_of_pfx_incomp c ("category" ++ "_") ("location" ++ "_") fl.location hpfx (by decide) (by decide))
              (ne_append_of_pfx_incomp c ("category" ++ "_") ("device" ++ "_") fl.device hpfx (by decide) (by decide))
          · rw [if_neg hall] at hok; cases hok
  · rw [show catDefault "location" = "Unknown" from rfl] at h2
    constructor
    · unfold prepare_features_from_raw
      rw [extractFields_removeField_location now rec]
      cases he : extractFields now rec with
      | error e => rfl
      | ok fl =>
        dsimp only [Except.map]
        obtain ⟨-, -, -, -, hFc, -, -, -, -, -, -⟩ := extract_ok_components he
        have hmv : fl.location = pyStr v := by
          rw [hFc]; unfold getVal; rw [hv, Option.getD_some]
        have hrow : buildRow schema fl = buildRow schema
            ⟨fl.amount, fl.category, fl.merchant, fl.timestamp, "Unknown", fl.device, fl.card_present, fl.cvv_present, fl.card_bin, fl.ip_address, fl.chargeback_history⟩ :=
          buildRow_location_swap schema fl.amount fl.location "Unknown" fl.timestamp fl.category fl.merchant fl.device fl.ip_address fl.card_present fl.cvv_present fl.card_bin fl.chargeback_history
            (by rw [hmv]; exact h1) h2
        rw [hrow]
    · intro vec hok pr hpr hpfx
      unfold prepare_features_from_raw at hok
      cases he : extractFields now rec with
      | error e => rw [he] at hok; cases hok
      | ok fl =>
        rw [he] at hok
        dsimp only at hok
        obtain ⟨-, -, -, -, hFc, -, -, -, -, -, -⟩ := extract_ok_components he
        have hmv : fl.location = pyStr v := by
          rw [hFc]; unfold getVal; rw [hv, Option.getD_some]
        cases hfn : sc.featureNames with
        | none =>
          simp only [scaleAndFrame, hfn, Except.ok.injEq] at hok
          subst hok
          obtain ⟨c, hcmem, rfl⟩ := List.mem_map.mp hpr
          dsimp only at hpfx ⊢
          have own : c ≠ "location" ++ "_" ++ fl.location := by
            intro he2
            apply h1
            rw [← hmv, ← he2]
            exact hcmem
          exact buildRow_at_zero schema fl c
              (strPfx_ne_lit "amount" hpfx (by decide))
              (strPfx_ne_lit "chargeback_history" hpfx (by decide))
              (strPfx_ne_lit "transaction_hour" hpfx (by decide))
              (strPfx_ne_lit "transaction_day" hpfx (by decide))
              (strPfx_ne_lit "is_high_amount" hpfx (by decide))
              (strPfx_ne_lit "card_info_match" hpfx (by decide))
              (strPfx_ne_lit "card_present" hpfx (by decide))
              (strPfx_ne_lit "cvv_present" hpfx (by decide))
              (ne_append_of_pfx_incomp c ("location" ++ "_") ("merchant" ++ "_") fl.merchant hpfx (by decide) (by decide))
              (ne_append_of_pfx_incomp c ("location" ++ "_") ("category" ++ "_") fl.category hpfx (by decide) (by decide))
              own
              (ne_append_of_pfx_incomp c ("location" ++ "_") ("device" ++ "_") fl.device hpfx (by decide) (by decide))
        | some cols =>
          simp only [scaleAndFrame, hfn] at hok
          by_cases hall : ∀ c2 ∈ cols, c2 ∈ schema
          · rw [if_pos hall] at hok
            simp only [Except.ok.injEq] at hok
            subst hok
            obtain ⟨c, hcmem, rfl⟩ := List.mem_map.mp hpr
            dsimp only at hpfx ⊢
            have own : c ≠ "location" ++ "_" ++ fl.location := by
              intro he2
              apply h1
              rw [← hmv, ← he2]
              exact hcmem
            have hcn : c ∉ cols := by
              intro hcc
              have hfalse := hsc cols hfn c hcc
              rw [hfalse] at hpfx
              exact Bool.noConfusion hpfx
            rw [if_neg hcn]
            exact buildRow_at_zero schema fl c
              (strPfx_ne_lit "amount" hpfx (by decide))
              (strPfx_ne_lit "chargeback_history" hpfx (by decide))
              (strPfx_ne_lit "transaction_hour" hpfx (by decide))
              (strPfx_ne_lit "transaction_day" hpfx (by decide))
              (strPfx_ne_lit "is_high_amount" hpfx (by decide))
              (strPfx_ne_lit "card_info_match" hpfx (by decide))
              (strPfx_ne_lit "card_present" hpfx (by decide))
              (strPfx_ne_lit "cvv_present" hpfx (by decide))
              (ne_append_of_pfx_incomp c ("location" ++ "_") ("merchant" ++ "_") fl.merchant hpfx (by decide) (by decide))
              (ne_append_of_pfx_incomp c ("location" ++ "_") ("category" ++ "_") fl.category hpfx (by decide) (by decide))
              own
              (ne_append_of_pfx_incomp c ("location" ++ "_") ("device" ++ "_") fl.device hpfx (by decide) (by decide))
          · rw [if_neg hall] at hok; cases hok
  · rw [show catDefault "device" = "Unknown" from rfl] at h2
    constructor
    · unfold prepare_features_from_raw
      rw [extractFields_removeField_device now rec]
      cases he : extractFields now rec with
      | error e => rfl
      | ok fl =>
        dsimp only [Except.map]
        obtain ⟨-, -, -, -, -, hFc, -, -, -, -, -⟩ := extract_ok_components he
        have hmv : fl.device = pyStr v := by
          rw [hFc]; unfold getVal; rw [hv, Option.getD_some]
        have hrow : buildRow schema fl = buildRow schema
            ⟨fl.amount, fl.category, fl.merchant, fl.timestamp, fl.location, "Unknown", fl.card_present, fl.cvv_present, fl.card_bin, fl.ip_address, fl.chargeback_history⟩ :=
          buildRow_device_swap schema fl.amount fl.device "Unknown" fl.timestamp fl.category fl.merchant fl.location fl.ip_address fl.card_present fl.cvv_present fl.card_bin fl.chargeback_history
            (by rw [hmv]; exact h1) h2
        rw [hrow]
    · intro vec hok pr hpr hpfx
      unfold prepare_features_from_raw at hok
      cases he : extractFields now rec with
      | error e => rw [he] at hok; cases hok
      | ok fl =>
        rw [he] at hok
        dsimp only at hok
        obtain ⟨-, -, -, -, -, hFc, -, -, -, -, -⟩ := extract_ok_components he
        have hmv : fl.device = pyStr v := by
          rw [hFc]; unfold getVal; rw [hv, Option.getD_some]
        cases hfn : sc.featureNames with
        | none =>
          simp only [scaleAndFrame, hfn, Except.ok.injEq] at hok
          subst hok
          obtain ⟨c, hcmem, rfl⟩ := List.mem_map.mp hpr
          dsimp only at hpfx ⊢
          have own : c ≠ "device" ++ "_" ++ fl.device := by
            intro he2
            apply h1
            rw [← hmv, ← he2]
            exact hcmem
          exact buildRow_at_zero schema fl c
              (strPfx_ne_lit "amount" hpfx (by decide))
              (strPfx_ne_lit "chargeback_history" hpfx (by decide))
              (strPfx_ne_lit "transaction_hour" hpfx (by decide))
              (strPfx_ne_lit "transaction_day" hpfx (by decide))
              (strPfx_ne_lit "is_high_amount" hpfx (by decide))
              (strPfx_ne_lit "card_info_match" hpfx (by decide))
              (strPfx_ne_lit "card_present" hpfx (by decide))
              (strPfx_ne_lit "cvv_present" hpfx (by decide))
              (ne_append_of_pfx_incomp c ("device" ++ "_") ("merchant" ++ "_") fl.merchant hpfx (by decide) (by decide))
              (ne_append_of_pfx_incomp c ("device" ++ "_") ("category" ++ "_") fl.category hpfx (by decide) (by decide))
              (ne_append_of_pfx_incomp c ("device" ++ "_") ("location" ++ "_") fl.location hpfx (by decide) (by decide))
              own
        | some cols =>
          simp only [scaleAndFrame, hfn] at hok
          by_cases hall : ∀ c2 ∈ cols, c2 ∈ schema
          · rw [if_pos hall] at hok
            simp only [Except.ok.injEq] at hok
            subst hok
            obtain ⟨c, hcmem, rfl⟩ := List.mem_map.mp hpr
            dsimp only at hpfx ⊢
            have own : c ≠ "device" ++ "_" ++ fl.device := by
              intro he2
              apply h1
              rw [← hmv, ← he2]
              exact hcmem
            have hcn : c ∉ cols := by
              intro hcc
              have hfalse := hsc cols hfn c hcc
              rw [hfalse] at hpfx
              exact Bool.noConfusion hpfx
            rw [if_neg hcn]
            exact buildRow_at_zero schema fl c
              (strPfx_ne_lit "amount" hpfx (by decide))
              (strPfx_ne_lit "chargeback_history" hpfx (by decide))
              (strPfx_ne_lit "transaction_hour" hpfx (by decide))
              (strPfx_ne_lit "transaction_day" hpfx (by decide))
              (strPfx_ne_lit "is_high_amount" hpfx (by decide))
              (strPfx_ne_lit "card_info_match" hpfx (by decide))
              (strPfx_ne_lit "card_present" hpfx (by decide))
              (strPfx_ne_lit "cvv_present" hpfx (by decide))
              (ne_append_of_pfx_incomp c ("device" ++ "_") ("merchant" ++ "_") fl.merchant hpfx (by decide) (by decide))
              (ne_append_of_pfx_incomp c ("device" ++ "_") ("category" ++ "_") fl.category hpfx (by decide) (by decide))
              (ne_append_of_pfx_incomp c ("device" ++ "_") ("location" ++ "_") fl.location hpfx (by decide) (by decide))
              own
          · rw [if_neg hall] at hok; cases hok

/-- C4 counterexample: with "merchant_Unknown" in the Schema Registry, a
record whose merchant value is unseen (its one-hot name not in the
Registry) does not produce the same Feature Vector as the same record with
the merchant field omitted: omission falls back to the default "Unknown",
whose one-hot column is set to 1. -/
theorem unseen_categorical_default_mismatch_cx :
    ("merchant" ++ "_" ++ pyStr (Value.str "ZZZNonexistent")) ∉ ["merchant_Unknown"] ∧
    prepare_features_from_raw ["merchant_Unknown"] scalerNone epochDT
      [("merchant", Value.str "ZZZNonexistent")] ≠
    prepare_features_from_raw ["merchant_Unknown"] scalerNone epochDT
      (removeField "merchant" [("merchant", Value.str "ZZZNonexistent")]) :=
  ⟨by decide, by decide⟩

/-- C4 amended witness: the amended theorem applied to a concrete schema and
record with an unseen merchant. -/
theorem unseen_categorical_dropped_amended_witness :
    (prepare_features_from_raw ["category_Food"] scalerNone epochDT
        [("merchant", Value.str "ZZZNonexistent")] =
      prepare_features_from_raw ["category_Food"] scalerNone epochDT
        (removeField "merchant" [("merchant", Value.str "ZZZNonexistent")])) ∧
    (∀ vec, prepare_features_from_raw ["category_Food"] scalerNone epochDT
        [("merchant", Value.str "ZZZNonexistent")] = .ok vec →
      ∀ pr ∈ vec, ("merchant" ++ "_").data.isPrefixOf pr.1.data = true → pr.2 = 0) :=
  unseen_categorical_dropped_amended ["category_Food"] scalerNone epochDT
    [("merchant", Value.str "ZZZNonexistent")] "merchant" (Value.str "ZZZNonexistent")
    (Or.inl rfl) (by decide) (by decide) (by decide) (fun _ hc => nomatch hc)

/-- C8: a missing model query parameter, or one that after lowercasing is
outside lr and rf, yields HTTP 400 with the unknown-model error, whatever
the request body holds and before any body validation, alignment or
prediction. -/
theorem unknown_model_400
    (MODELS : Models) (schema : List String) (sc : ScalerState) (now : DateTime)
    (modelArg : Option String) (jsonBody : Option RawRecord)
    (h : ¬ (strToLower (modelArg.getD "") = "lr" ∨ strToLower (modelArg.getD "") = "rf")) :
    predict MODELS schema sc now modelArg jsonBody =
      (400, .err "Unknown model. Use ?model=lr or ?model=rf") := by
  simp only [predict]
  rw [if_neg h]

/-- C8 witness: model xgboost is rejected regardless of a fully valid body. -/
theorem unknown_model_400_witness :
    predict modelsNearHalf [] scalerNone epochDT (some "xgboost") (some recScenario) =
      (400, .err "Unknown model. Use ?model=lr or ?model=rf") :=
  unknown_model_400 modelsNearHalf [] scalerNone epochDT (some "xgboost")
    (some recScenario) (by decide)

/-- C9: with a valid model choice, a body missing any required field yields
HTTP 400 with a message listing exactly the absent fields, before any
alignment or prediction; an absent or unparseable body counts as the empty
record and yields the 400 listing all eleven required fields. -/
theorem missing_fields_400
    (MODELS : Models) (schema : List String) (sc : ScalerState) (now : DateTime)
    (modelArg : Option String) (jsonBody : Option RawRecord)
    (h : strToLower (modelArg.getD "") = "lr" ∨ strToLower (modelArg.getD "") = "rf") :
    (∀ data, jsonBody = some data →
      REQUIRED.filter (fun k => (lookupField k data).isNone) ≠ [] →
      predict MODELS schema sc now modelArg jsonBody =
        (400, .err ("Missing fields: " ++
          pyListRepr (REQUIRED.filter (fun k => (lookupField k data).isNone))))) ∧
    (jsonBody = none →
      predict MODELS schema sc now modelArg jsonBody =
        (400, .err ("Missing fields: " ++ pyListRepr REQUIRED))) := by
  constructor
  · intro data hb hm
    subst hb
    simp only [predict, Option.getD_some]
    rw [if_pos h, if_neg hm]
  · intro hb
    subst hb
    simp only [predict, Option.getD_none]
    rw [if_pos h]
    have hfil : REQUIRED.filter (fun k => (lookupField k ([] : RawRecord)).isNone) =
        REQUIRED := by decide
    rw [hfil, if_neg (by decide : ¬ (REQUIRED = ([] : List String)))]

/-- C9 witness: a missing body with a valid model yields the 400 listing all
eleven required fields. -/
theorem missing_fields_400_witness :
    predict modelsNearHalf [] scalerNone epochDT (some "lr") none =
      (400, .err ("Missing fields: " ++ pyListRepr REQUIRED)) :=
  (missing_fields_400 modelsNearHalf [] scalerNone epochDT (some "lr") none
    (Or.inl (by decide))).2 rfl

/-- On the success path the endpoint returns 200 with the chosen model's
name, the echoed body, the probability rounded to four decimals and the
0.5-thresholded decision computed from the unrounded probability. -/
lemma predict_ok_shape
    (MODELS : Models) (schema : List String) (sc : ScalerState) (now : DateTime)
    (modelArg : Option String) (data : RawRecord) (vec : List (String × ℚ))
    (h1 : strToLower (modelArg.getD "") = "lr" ∨ strToLower (modelArg.getD "") = "rf")
    (h2 : REQUIRED.filter (fun k => (lookupField k data).isNone) = [])
    (h3 : prepare_features_from_raw schema sc now data = .ok vec) :
    predict MODELS schema sc now modelArg (some data) =
      (200, .ok
        (if strToLower (modelArg.getD "") = "lr" then "logistic_regression"
         else "random_forest")
        data
        (pyRound4 ((if strToLower (modelArg.getD "") = "lr" then MODELS.lr
                    else MODELS.rf) vec))
        (if (if strToLower (modelArg.getD "") = "lr" then MODELS.lr
             else MODELS.rf) vec ≥ 1 / 2 then 1 else 0)) := by
  simp only [predict, Option.getD_some]
  rw [if_pos h1, if_pos h2, h3]

/-- C10 amended: every successful request returns the probability rounded to
4 decimals as fraud_probability and a predicted_is_fraud in 0 or 1 equal to
1 exactly when the unrounded probability is at least 0.5; the rounded field
itself may sit on the other side of the threshold. -/
theorem predict_success_response_amended
    (MODELS : Models) (schema : List String) (sc : ScalerState) (now : DateTime)
    (modelArg : Option String) (data : RawRecord) (vec : List (String × ℚ))
    (h1 : strToLower (modelArg.getD "") = "lr" ∨ strToLower (modelArg.getD "") = "rf")
    (h2 : REQUIRED.filter (fun k => (lookupField k data).isNone) = [])
    (h3 : prepare_features_from_raw schema sc now data = .ok vec) :
    (predict MODELS schema sc now modelArg (some data) =
      (200, .ok
        (if strToLower (modelArg.getD "") = "lr" then "logistic_regression"
         else "random_forest")
        data
        (pyRound4 ((if strToLower (modelArg.getD "") = "lr" then MODELS.lr
                    else MODELS.rf) vec))
        (if (if strToLower (modelArg.getD "") = "lr" then MODELS.lr
             else MODELS.rf) vec ≥ 1 / 2 then 1 else 0))) ∧
    ((if (if strToLower (modelArg.getD "") = "lr" then MODELS.lr
          else MODELS.rf) vec ≥ 1 / 2 then (1 : ℤ) else 0) = 0 ∨
     (if (if strToLower (modelArg.getD "") = "lr" then MODELS.lr
          else MODELS.rf) vec ≥ 1 / 2 then (1 : ℤ) else 0) = 1) ∧
    ((if (if strToLower (modelArg.getD "") = "lr" then MODELS.lr
          else MODELS.rf) vec ≥ 1 / 2 then (1 : ℤ) else 0) = 1 ↔
     (if strToLower (modelArg.getD "") = "lr" then MODELS.lr
      else MODELS.rf) vec ≥ 1 / 2) := by
  refine ⟨predict_ok_shape MODELS schema sc now modelArg data vec h1 h2 h3, ?_, ?_⟩
  · by_cases hp : (if strToLower (modelArg.getD "") = "lr" then MODELS.lr
        else MODELS.rf) vec ≥ 1 / 2
    · right; rw [if_pos hp]
    · left; rw [if_neg hp]
  · by_cases hp : (if strToLower (modelArg.getD "") = "lr" then MODELS.lr
        else MODELS.rf) vec ≥ 1 / 2
    · rw [if_pos hp]; exact ⟨fun _ => hp, fun _ => rfl⟩
    · rw [if_neg hp]
      exact ⟨fun hz => absurd hz (by decide), fun hge => absurd hge hp⟩

/-- C10 amended witness: the amended theorem applied to the rf model on the
scenario record over the empty schema. -/
theorem predict_success_response_amended_witness :
    (predict modelsNearHalf [] scalerNone epochDT (some "rf") (some recScenario) =
      (200, .ok
        (if strToLower ((some "rf").getD "") = "lr" then "logistic_regression"
         else "random_forest")
        recScenario
        (pyRound4 ((if strToLower ((some "rf").getD "") = "lr" then modelsNearHalf.lr
                    else modelsNearHalf.rf) []))
        (if (if strToLower ((some "rf").getD "") = "lr" then modelsNearHalf.lr
             else modelsNearHalf.rf) [] ≥ 1 / 2 then 1 else 0))) ∧
    ((if (if strToLower ((some "rf").getD "") = "lr" then modelsNearHalf.lr
          else modelsNearHalf.rf) [] ≥ 1 / 2 then (1 : ℤ) else 0) = 0 ∨
     (if (if strToLower ((some "rf").getD "") = "lr" then modelsNearHalf.lr
          else modelsNearHalf.rf) [] ≥ 1 / 2 then (1 : ℤ) else 0) = 1) ∧
    ((if (if strToLower ((some "rf").getD "") = "lr" then modelsNearHalf.lr
          else modelsNearHalf.rf) [] ≥ 1 / 2 then (1 : ℤ) else 0) = 1 ↔
     (if strToLower ((some "rf").getD "") = "lr" then modelsNearHalf.lr
      else modelsNearHalf.rf) [] ≥ 1 / 2) :=
  predict_success_response_amended modelsNearHalf [] scalerNone epochDT (some "rf")
    recScenario [] (Or.inr (by decide)) (by decide) (by decide)

/-- C10 counterexample: with a model whose probability is 0.49996, the
response carries fraud_probability 0.5 (the rounded value) yet
predicted_is_fraud 0, so the decision does not match the reported
fraud_probability as compared against the 0.5 threshold. -/
theorem rounded_probability_threshold_cx :
    predict modelsNearHalf [] scalerNone epochDT (some "lr") (some recScenario) =
      (200, .ok "logistic_regression" recScenario (1 / 2) 0) ∧
    ((1 : ℚ) / 2 ≥ 1 / 2) ∧ (0 : ℤ) ≠ 1 := by
  refine ⟨?_, by norm_num, by decide⟩
  have h := predict_ok_shape modelsNearHalf [] scalerNone epochDT (some "lr")
    recScenario [] (Or.inl (by decide)) (by decide) (by decide)
  have hc : strToLower ((some "lr").getD "") = "lr" := by decide
  rw [h, hc]
  norm_num [modelsNearHalf, pyRound4, roundHalfEven]

end CCFraud
